import Mathlib

/-!
Verification of the NYC-taxi notebook pipeline
(`databricks/notebooks/01_data_ingestion.py` and
`databricks/notebooks/02_data_analysis.py`).

The notebooks are thin declarative Spark scripts; we shallow-embed the
dataframe logic over Lean lists.  Nullable Spark columns become `Option`
values and Spark SQL's three-valued (Kleene) logic for comparisons,
conjunction and disjunction is modelled explicitly: a comparison with a
NULL operand is NULL, `filter` keeps a row only when the predicate is
literally TRUE, and division returns NULL on a zero divisor (Spark's
non-ANSI `Divide`).  Timestamps are epoch seconds (`Int`, the notebooks
only ever use them through `cast("long")`, `hour` and `dayofweek`);
numeric double columns become `ℚ`.
-/

/-- Spark SQL three-valued AND: FALSE dominates, NULL is unknown. -/
def sqlAnd : Option Bool → Option Bool → Option Bool
  | some false, _ => some false
  | _, some false => some false
  | some true, some true => some true
  | _, _ => none

/-- Spark SQL three-valued OR: TRUE dominates, NULL is unknown. -/
def sqlOr : Option Bool → Option Bool → Option Bool
  | some true, _ => some true
  | _, some true => some true
  | some false, some false => some false
  | _, _ => none

/-- Spark SQL comparison x < y: NULL when either operand is NULL. -/
def sqlLt {α : Type} [LT α] [DecidableRel ((· < ·) : α → α → Prop)] :
    Option α → Option α → Option Bool
  | some x, some y => some (decide (x < y))
  | _, _ => none

/-- Spark SQL comparison x ≤ y: NULL when either operand is NULL. -/
def sqlLe {α : Type} [LE α] [DecidableRel ((· ≤ ·) : α → α → Prop)] :
    Option α → Option α → Option Bool
  | some x, some y => some (decide (x ≤ y))
  | _, _ => none

/-- Spark SQL equality test: NULL when either operand is NULL. -/
def sqlEq {α : Type} [DecidableEq α] : Option α → Option α → Option Bool
  | some x, some y => some (decide (x = y))
  | _, _ => none

/-- Spark SQL subtraction on long columns: NULL-propagating. -/
def sqlSub : Option Int → Option Int → Option Int
  | some x, some y => some (x - y)
  | _, _ => none

/-- Spark SQL double division: NULL-propagating, and NULL on a zero
divisor (Spark's non-ANSI `Divide` operator). -/
def sqlDiv : Option ℚ → Option ℚ → Option ℚ
  | some x, some y => if y = 0 then none else some (x / y)
  | _, _ => none

/-- Spark SQL multiplication on doubles: NULL-propagating. -/
def sqlMul : Option ℚ → Option ℚ → Option ℚ
  | some x, some y => some (x * y)
  | _, _ => none

/-- Spark `isNotNull` column predicate. -/
def isNotNull {α : Type} (a : Option α) : Option Bool := some a.isSome

/-- Spark `isNull` column predicate. -/
def isNull {α : Type} (a : Option α) : Option Bool := some a.isNone

/-- Spark `when(c, a).otherwise(b)`: the otherwise branch is taken both
when the condition is FALSE and when it is NULL. -/
def sqlWhen {α : Type} (c : Option Bool) (a b : Option α) : Option α :=
  match c with
  | some true => a
  | _ => b

/-- Spark `BETWEEN lo AND hi`, inclusive on both ends. -/
def sqlBetween (x lo hi : Option Int) : Option Bool :=
  sqlAnd (sqlLe lo x) (sqlLe x hi)

/-- Spark `filter` keeps a row exactly when the predicate evaluated to
TRUE (NULL and FALSE rows are dropped). -/
def keep (p : Option Bool) : Bool := p = some true

/-- Spark `hour` of an epoch-second timestamp (UTC). -/
def sparkHour (t : Int) : Int := (Int.fdiv t 3600).emod 24

/-- Spark `dayofweek` of an epoch-second timestamp (UTC): 1 = Sunday
through 7 = Saturday; epoch day 0 (1970-01-01) was a Thursday. -/
def sparkDayOfWeek (t : Int) : Int := ((Int.fdiv t 86400 + 4).emod 7) + 1

/-- Projection of a trip record to the columns the notebook logic reads.
All columns are nullable in `taxi_schema`; the remaining columns
(vendor, rate code, surcharges, …) are payload that no predicate or
derived column of the notebooks touches. -/
structure TaxiRow where
  tpep_pickup_datetime : Option Int
  tpep_dropoff_datetime : Option Int
  passenger_count : Option Int
  trip_distance : Option ℚ
  fare_amount : Option ℚ
  PULocationID : Option Int
  DOLocationID : Option Int
deriving DecidableEq

/-- Elapsed seconds of a trip, as the notebook computes it:
`dropoff.cast("long") - pickup.cast("long")`. -/
def elapsedSeconds (r : TaxiRow) : Option Int :=
  sqlSub r.tpep_dropoff_datetime r.tpep_pickup_datetime

/-- Cleaning predicate of `df_cleaned` (01_data_ingestion.py, lines
234-251), conjunct for conjunct in source order: non-null timestamps,
dropoff strictly after pickup, elapsed seconds at most 86400, passenger
count in [1,8], positive distance, fare in [0,500]. -/
def cleanCond (r : TaxiRow) : Option Bool :=
  sqlAnd (isNotNull r.tpep_pickup_datetime) <|
  sqlAnd (isNotNull r.tpep_dropoff_datetime) <|
  sqlAnd (sqlLt r.tpep_pickup_datetime r.tpep_dropoff_datetime) <|
  sqlAnd (sqlLe (elapsedSeconds r) (some 86400)) <|
  sqlAnd (sqlLe (some 1) r.passenger_count) <|
  sqlAnd (sqlLe r.passenger_count (some 8)) <|
  sqlAnd (sqlLt (some 0) r.trip_distance) <|
  sqlAnd (sqlLe (some 0) r.fare_amount) <|
  (sqlLe r.fare_amount (some 500))

/-- The cleaning stage: `df_cleaned = df_raw.filter(...)`. -/
def df_cleaned (raw : List TaxiRow) : List TaxiRow :=
  raw.filter (fun r => keep (cleanCond r))

/-- Modelled from the spec: the cleaning conjunction exactly as §4.2
words it — "non-null timestamps; dropoff > pickup; elapsed ≤ 86400s;
1 ≤ passengers ≤ 8; distance > 0; 0 ≤ fare ≤ 500".  A row satisfies the
conjunction only when every compared column holds a value. -/
def specCleanPred (r : TaxiRow) : Bool :=
  match r.tpep_pickup_datetime, r.tpep_dropoff_datetime, r.passenger_count,
      r.trip_distance, r.fare_amount with
  | some pu, some doff, some pc, some dist, some fare =>
      decide (pu < doff) && decide (doff - pu ≤ 86400) &&
      decide (1 ≤ pc) && decide (pc ≤ 8) &&
      decide (0 < dist) && decide (0 ≤ fare) && decide (fare ≤ 500)
  | _, _, _, _, _ => false

/-- Quality-check evaluator `run_data_quality_checks` (01_data_ingestion.py,
lines 177-213), check for check in source order.  Each check filters the
(unmodified) dataset, counts the violating rows, and pairs the count with
its pass flag; the evaluator reads the dataset and returns the report
only, so the dataset itself is untouched. -/
def run_data_quality_checks (df : List TaxiRow) : List (String × Nat × Bool) :=
  let null_times :=
    (df.filter fun r => keep (sqlOr (isNull r.tpep_pickup_datetime)
      (isNull r.tpep_dropoff_datetime))).length
  let invalid_duration :=
    (df.filter fun r => keep (sqlOr
      (sqlLe r.tpep_dropoff_datetime r.tpep_pickup_datetime)
      (sqlLt (some 86400) (elapsedSeconds r)))).length
  let invalid_passenger_count :=
    (df.filter fun r => keep (sqlOr (sqlLt r.passenger_count (some 1))
      (sqlLt (some 10) r.passenger_count))).length
  let negative_distance :=
    (df.filter fun r => keep (sqlLe r.trip_distance (some 0))).length
  let invalid_fare :=
    (df.filter fun r => keep (sqlOr (sqlLt r.fare_amount (some 0))
      (sqlLt (some 1000) r.fare_amount))).length
  [("Null pickup/dropoff times", null_times, decide (null_times = 0)),
   ("Invalid trip duration", invalid_duration,
      decide ((invalid_duration : ℚ) < (df.length : ℚ) * 0.01)),
   ("Invalid passenger count", invalid_passenger_count,
      decide ((invalid_passenger_count : ℚ) < (df.length : ℚ) * 0.05)),
   ("Negative trip distance", negative_distance,
      decide ((negative_distance : ℚ) < (df.length : ℚ) * 0.01)),
   ("Invalid fare amount", invalid_fare,
      decide ((invalid_fare : ℚ) < (df.length : ℚ) * 0.01))]

/-- Modelled from the spec: rows with a null pickup or dropoff timestamp
(check 1's population, §4.1). -/
def specNullTimesCount (df : List TaxiRow) : Nat :=
  df.countP fun r => r.tpep_pickup_datetime.isNone || r.tpep_dropoff_datetime.isNone

/-- Modelled from the spec: rows with dropoff ≤ pickup or elapsed seconds
above 86400 (check 2's population, §4.1). -/
def specInvalidDurationCount (df : List TaxiRow) : Nat :=
  df.countP fun r =>
    match r.tpep_pickup_datetime, r.tpep_dropoff_datetime with
    | some pu, some doff => decide (doff ≤ pu) || decide (86400 < doff - pu)
    | _, _ => false

/-- Modelled from the spec: rows with passenger count outside [1,10]
(check 3's population, §4.1). -/
def specInvalidPassengerCount (df : List TaxiRow) : Nat :=
  df.countP fun r =>
    match r.passenger_count with
    | some pc => decide (pc < 1) || decide (10 < pc)
    | none => false

/-- Modelled from the spec: rows with trip distance ≤ 0 (check 4's
population, §4.1). -/
def specNonposDistanceCount (df : List TaxiRow) : Nat :=
  df.countP fun r =>
    match r.trip_distance with
    | some d => decide (d ≤ 0)
    | none => false

/-- Modelled from the spec: rows with fare amount outside [0,1000]
(check 5's population, §4.1). -/
def specInvalidFareCount (df : List TaxiRow) : Nat :=
  df.countP fun r =>
    match r.fare_amount with
    | some f => decide (f < 0) || decide (1000 < f)
    | none => false

/-- Derived column `trip_duration_minutes`: the long-cast timestamp
difference divided (double division) by 60. -/
def durationMinutes (r : TaxiRow) : Option ℚ :=
  match elapsedSeconds r with
  | some s => some ((s : ℚ) / 60)
  | none => none

/-- Row of `df_enhanced`: the cleaned row plus the four derived columns
added by `withColumn` (01_data_ingestion.py, lines 254-268). -/
structure EnhancedRow where
  base : TaxiRow
  trip_duration_minutes : Option ℚ
  pickup_hour : Option Int
  pickup_day_of_week : Option Int
  trip_speed_mph : Option ℚ
deriving DecidableEq

/-- Derived-column computation of `df_enhanced`: duration in minutes,
pickup hour, pickup day-of-week, and speed guarded by
`when(duration > 0, distance / (duration / 60)).otherwise(0)`. -/
def enhance (r : TaxiRow) : EnhancedRow :=
  let dur := durationMinutes r
  { base := r
    trip_duration_minutes := dur
    pickup_hour := r.tpep_pickup_datetime.map sparkHour
    pickup_day_of_week := r.tpep_pickup_datetime.map sparkDayOfWeek
    trip_speed_mph :=
      sqlWhen (sqlLt (some 0) dur) (sqlDiv r.trip_distance (sqlDiv dur (some 60))) (some 0) }

/-- The enhanced dataset written to Delta: derived columns over the
cleaned rows. -/
def df_enhanced (raw : List TaxiRow) : List EnhancedRow :=
  (df_cleaned raw).map enhance

/-- Post-write validation (01_data_ingestion.py, line 320):
`assert df_delta.count() == df_enhanced.count(), "Record count mismatch
after Delta save"`.  The failed assertion (a fatal stop of the run) is
modelled as the error branch of an `Except`. -/
def validate_delta_roundtrip (writtenCount readBackCount : Nat) : Except String Unit :=
  if readBackCount = writtenCount then Except.ok ()
  else Except.error "Record count mismatch after Delta save"

/-- Concrete row whose passenger count (9) violates no quality check
(check bound 10) yet fails the cleaning filter (cleaning bound 8). -/
def discrepancyRowPassenger9 : TaxiRow :=
  { tpep_pickup_datetime := some 0
    tpep_dropoff_datetime := some 600
    passenger_count := some 9
    trip_distance := some 1
    fare_amount := some 10
    PULocationID := some 1
    DOLocationID := some 1 }

/-- Concrete row whose fare (600) violates no quality check (check bound
1000) yet fails the cleaning filter (cleaning bound 500). -/
def discrepancyRowFare600 : TaxiRow :=
  { tpep_pickup_datetime := some 0
    tpep_dropoff_datetime := some 600
    passenger_count := some 2
    trip_distance := some 1
    fare_amount := some 600
    PULocationID := some 1
    DOLocationID := some 1 }

/-- Example trip of spec §8: pickup 2023-01-01T08:00:00Z (epoch
1672560000, a Sunday), dropoff 15 minutes later, distance 3.0, fare
12.0, 2 passengers.  Expected derived values: duration 15.0 min, hour
8, day-of-week 1, speed 12.0 mph. -/
def exampleTrip : TaxiRow :=
  { tpep_pickup_datetime := some 1672560000
    tpep_dropoff_datetime := some 1672560900
    passenger_count := some 2
    trip_distance := some 3
    fare_amount := some 12
    PULocationID := some 100
    DOLocationID := some 200 }

/-- Columns selected into the ML dataset (02_data_analysis.py, lines
188-196), in the source's select order with `fare_amount` as target. -/
structure MLBase where
  trip_distance : Option ℚ
  passenger_count : Option Int
  pickup_hour : Option Int
  pickup_day_of_week : Option Int
  trip_duration_minutes : Option ℚ
  PULocationID : Option Int
  DOLocationID : Option Int
  fare_amount : Option ℚ
deriving DecidableEq

/-- Projection of an enhanced row onto the ML columns (the select of
02_data_analysis.py, lines 188-196). -/
def selectML (e : EnhancedRow) : MLBase :=
  { trip_distance := e.base.trip_distance
    passenger_count := e.base.passenger_count
    pickup_hour := e.pickup_hour
    pickup_day_of_week := e.pickup_day_of_week
    trip_duration_minutes := e.trip_duration_minutes
    PULocationID := e.base.PULocationID
    DOLocationID := e.base.DOLocationID
    fare_amount := e.base.fare_amount }

/-- Outlier filter of the ML dataset (02_data_analysis.py, lines
197-202), conjunct for conjunct in source order. -/
def mlFilterCond (m : MLBase) : Option Bool :=
  sqlAnd (sqlLt (some 0) m.fare_amount) <|
  sqlAnd (sqlLt m.fare_amount (some 100)) <|
  sqlAnd (sqlLt (some 0) m.trip_distance) <|
  sqlAnd (sqlLt m.trip_distance (some 50)) <|
  sqlAnd (sqlLt (some 1) m.trip_duration_minutes) <|
  (sqlLt m.trip_duration_minutes (some 120))

/-- Modelled from the spec: the modeling-subset bounds as §4.6 words
them — fare in (0,100), distance in (0,50), duration in (1,120). -/
def specMLKeep (m : MLBase) : Bool :=
  match m.fare_amount, m.trip_distance, m.trip_duration_minutes with
  | some f, some x, some d =>
      decide (0 < f) && decide (f < 100) && decide (0 < x) && decide (x < 50) &&
      decide (1 < d) && decide (d < 120)
  | _, _, _ => false

/-- Row of the ML dataset after the three `withColumn` feature adds
(02_data_analysis.py, lines 205-211). -/
structure MLRow extends MLBase where
  is_weekend : Option Int
  is_rush_hour : Option Int
  trip_speed_mph : Option ℚ
deriving DecidableEq

/-- Derived ML features: `is_weekend` flags day-of-week 1 or 7,
`is_rush_hour` flags hour between 7 and 9 or between 17 and 19 (both
inclusive), and the speed recomputation has no zero-duration guard. -/
def addMLFeatures (m : MLBase) : MLRow :=
  { toMLBase := m
    is_weekend :=
      sqlWhen (sqlOr (sqlEq m.pickup_day_of_week (some 1))
        (sqlEq m.pickup_day_of_week (some 7))) (some 1) (some 0)
    is_rush_hour :=
      sqlWhen (sqlOr (sqlBetween m.pickup_hour (some 7) (some 9))
        (sqlBetween m.pickup_hour (some 17) (some 19))) (some 1) (some 0)
    trip_speed_mph :=
      sqlDiv m.trip_distance (sqlDiv m.trip_duration_minutes (some 60)) }

/-- The ML dataset `ml_df`: select, outlier filter, then the derived
features. -/
def ml_df (df : List EnhancedRow) : List MLRow :=
  ((df.map selectML).filter fun m => keep (mlFilterCond m)).map addMLFeatures

/-- One output row of the `hourly_revenue` aggregation
(02_data_analysis.py, lines 402-408): group key, mean fare, row count,
and approximate total revenue = mean fare × count. -/
structure HourlyRevenueRow where
  pickup_hour : Option Int
  avg_fare : Option ℚ
  trip_count : Nat
  total_revenue : Option ℚ
deriving DecidableEq

/-- Aggregate for one pickup-hour group: `count` counts every row of
the group, `avg` averages the non-null fares (NULL on an empty set,
Spark semantics), and total revenue multiplies the two. -/
def hourlyAgg (df : List EnhancedRow) (h : Option Int) : HourlyRevenueRow :=
  let grp := df.filter fun e => decide (e.pickup_hour = h)
  let fares := grp.filterMap fun e => e.base.fare_amount
  let avg : Option ℚ :=
    if fares.length = 0 then none else some (fares.sum / (fares.length : ℚ))
  { pickup_hour := h
    avg_fare := avg
    trip_count := grp.length
    total_revenue := sqlMul avg (some (grp.length : ℚ)) }

/-- Descending order on total revenue used by
`orderBy(desc("total_revenue"))`: row a may precede row b when a's
total is at least b's; NULL totals sort last (Spark's default for
descending order). -/
def revGeB (a b : HourlyRevenueRow) : Bool :=
  match a.total_revenue, b.total_revenue with
  | some x, some y => decide (y ≤ x)
  | some _, none => true
  | none, some _ => false
  | none, none => true

/-- Propositional form of the descending order on total revenue. -/
def revGe (a b : HourlyRevenueRow) : Prop := revGeB a b = true

instance : DecidableRel revGe := fun _ _ => instDecidableEqBool _ _

instance : IsTotal HourlyRevenueRow revGe where
  total a b := by
    unfold revGe revGeB
    rcases a.total_revenue with _ | x <;> rcases b.total_revenue with _ | y <;> simp
    exact le_total y x

instance : IsTrans HourlyRevenueRow revGe where
  trans a b c hab hbc := by
    obtain ⟨_, _, _, ta⟩ := a
    obtain ⟨_, _, _, tb⟩ := b
    obtain ⟨_, _, _, tc⟩ := c
    unfold revGe revGeB at hab hbc ⊢
    cases ta <;> cases tb <;> cases tc <;> simp_all
    linarith

/-- The `hourly_revenue` dataframe: one aggregate per distinct pickup
hour, sorted descending by total revenue. -/
def hourly_revenue (df : List EnhancedRow) : List HourlyRevenueRow :=
  List.insertionSort revGe ((df.map fun e => e.pickup_hour).dedup.map (hourlyAgg df))

/-- The reported top revenue hours: `hourly_revenue.show(5)` displays
the first five rows of the sorted dataframe. -/
def top_revenue_hours (df : List EnhancedRow) : List HourlyRevenueRow :=
  (hourly_revenue df).take 5

/-- Strictly-descending adjacency relation claimed for the revenue
report: the earlier row's total revenue strictly exceeds the later
row's. -/
def strictRevGt (a b : HourlyRevenueRow) : Prop :=
  ∃ x y : ℚ, a.total_revenue = some x ∧ b.total_revenue = some y ∧ y < x

/-- Base row for the revenue tie counterexample. -/
def tieBase : TaxiRow :=
  { tpep_pickup_datetime := some 0
    tpep_dropoff_datetime := some 600
    passenger_count := some 1
    trip_distance := some 1
    fare_amount := some 10
    PULocationID := some 1
    DOLocationID := some 1 }

/-- Enhanced row with pickup hour 1 and fare 10. -/
def tieRowHour1 : EnhancedRow :=
  { base := tieBase
    trip_duration_minutes := some 10
    pickup_hour := some 1
    pickup_day_of_week := some 5
    trip_speed_mph := some 6 }

/-- Enhanced row with pickup hour 2 and the same fare 10, giving hours
1 and 2 identical total revenue. -/
def tieRowHour2 : EnhancedRow :=
  { base := tieBase
    trip_duration_minutes := some 10
    pickup_hour := some 2
    pickup_day_of_week := some 5
    trip_speed_mph := some 6 }

/-- The two regression models trained by the analysis notebook. -/
inductive RegModel where
  | linearRegression
  | randomForest
deriving DecidableEq

/-- Model selection (02_data_analysis.py, lines 334-341): the random
forest is chosen exactly when `rf_rmse < rmse`, otherwise the linear
regression (also on ties). -/
def best_model (lr_rmse rf_rmse : ℚ) : RegModel :=
  if rf_rmse < lr_rmse then RegModel.randomForest else RegModel.linearRegression

/-- Feature-importance reporting (02_data_analysis.py, lines 345-347):
shown under the same condition `rf_rmse < rmse`. -/
def feature_importance_reported (lr_rmse rf_rmse : ℚ) : Bool :=
  decide (rf_rmse < lr_rmse)

/-- Held-out RMSE of a model, given both evaluated RMSE values. -/
def rmse_of (lr_rmse rf_rmse : ℚ) : RegModel → ℚ
  | RegModel.linearRegression => lr_rmse
  | RegModel.randomForest => rf_rmse

/-- ML row used as witness input: the §8 example trip after cleaning,
enhancement, selection and feature derivation. -/
def exampleML : MLRow := addMLFeatures (selectML (enhance exampleTrip))

theorem keep_some (b : Bool) : keep (some b) = b := by cases b <;> simp [keep]

theorem keep_none : keep (none : Option Bool) = false := by simp [keep]

theorem keep_sqlAnd (a b : Option Bool) : keep (sqlAnd a b) = (keep a && keep b) := by
  cases a with
  | none => cases b with
    | none => simp [sqlAnd, keep]
    | some y => cases y <;> simp [sqlAnd, keep]
  | some x => cases x <;> cases b with
    | none => simp [sqlAnd, keep]
    | some y => cases y <;> simp [sqlAnd, keep]

theorem keep_sqlOr (a b : Option Bool) : keep (sqlOr a b) = (keep a || keep b) := by
  cases a with
  | none => cases b with
    | none => simp [sqlOr, keep]
    | some y => cases y <;> simp [sqlOr, keep]
  | some x => cases x <;> cases b with
    | none => simp [sqlOr, keep]
    | some y => cases y <;> simp [sqlOr, keep]

theorem keep_cleanCond (r : TaxiRow) : keep (cleanCond r) = specCleanPred r := by
  obtain ⟨pu, doff, pc, dist, fare, pul, dol⟩ := r
  cases pu <;> cases doff <;> cases pc <;> cases dist <;> cases fare <;>
    simp [cleanCond, specCleanPred, elapsedSeconds, keep_sqlAnd, keep_some, keep_none,
      isNotNull, sqlLt, sqlLe, sqlSub, Bool.and_assoc]

/-- C1: the cleaning stage returns exactly the rows of the raw dataset
satisfying the spec's conjunction (non-null timestamps, dropoff >
pickup, elapsed ≤ 86400 s, 1 ≤ passengers ≤ 8, distance > 0,
0 ≤ fare ≤ 500): the cleaned output is literally the filter of the raw
list by that conjunction, it is a sublist of the raw list (order
preserved, no row created), and a row is in the output iff it is a raw
row satisfying the conjunction — in particular every row with
dropoff ≤ pickup is excluded. -/
theorem cleaning_filters_exactly_spec_conjunction (raw : List TaxiRow) :
    df_cleaned raw = raw.filter specCleanPred ∧
    List.Sublist (df_cleaned raw) raw ∧
    (∀ r : TaxiRow, r ∈ df_cleaned raw ↔ r ∈ raw ∧ specCleanPred r = true) := by
  have hfun : df_cleaned raw = raw.filter specCleanPred := by
    unfold df_cleaned
    exact List.filter_congr (fun r _ => keep_cleanCond r)
  refine ⟨hfun, ?_, ?_⟩
  · rw [hfun]; exact List.filter_sublist raw
  · intro r
    rw [hfun, List.mem_filter]

theorem keep_checkNullTimes (r : TaxiRow) :
    keep (sqlOr (isNull r.tpep_pickup_datetime) (isNull r.tpep_dropoff_datetime)) =
      (r.tpep_pickup_datetime.isNone || r.tpep_dropoff_datetime.isNone) := by
  simp [keep_sqlOr, keep_some, isNull]

theorem keep_checkDuration (r : TaxiRow) :
    keep (sqlOr (sqlLe r.tpep_dropoff_datetime r.tpep_pickup_datetime)
        (sqlLt (some 86400) (elapsedSeconds r))) =
      (match r.tpep_pickup_datetime, r.tpep_dropoff_datetime with
       | some pu, some doff => decide (doff ≤ pu) || decide (86400 < doff - pu)
       | _, _ => false) := by
  obtain ⟨pu, doff, _, _, _, _, _⟩ := r
  cases pu <;> cases doff <;>
    simp [elapsedSeconds, sqlSub, sqlLe, sqlLt, keep_sqlOr, keep_some, keep_none]

theorem keep_checkPassenger (r : TaxiRow) :
    keep (sqlOr (sqlLt r.passenger_count (some 1)) (sqlLt (some 10) r.passenger_count)) =
      (match r.passenger_count with
       | some pc => decide (pc < 1) || decide (10 < pc)
       | none => false) := by
  obtain ⟨_, _, pc, _, _, _, _⟩ := r
  cases pc <;> simp [sqlLt, keep_sqlOr, keep_some, keep_none]

theorem keep_checkDistance (r : TaxiRow) :
    keep (sqlLe r.trip_distance (some 0)) =
      (match r.trip_distance with
       | some d => decide (d ≤ 0)
       | none => false) := by
  obtain ⟨_, _, _, dist, _, _, _⟩ := r
  cases dist <;> simp [sqlLe, keep_some, keep_none]

theorem keep_checkFare (r : TaxiRow) :
    keep (sqlOr (sqlLt r.fare_amount (some 0)) (sqlLt (some 1000) r.fare_amount)) =
      (match r.fare_amount with
       | some f => decide (f < 0) || decide (1000 < f)
       | none => false) := by
  obtain ⟨_, _, _, _, fare, _, _⟩ := r
  cases fare <;> simp [sqlLt, keep_sqlOr, keep_some, keep_none]

/-- C2: on a dataset of N rows the quality-check evaluator returns
exactly five (name, violation count, pass flag) results in the fixed
order null-times, duration, passenger, distance, fare; the counts are
the numbers of rows violating the spec's five predicates, check 1
passes iff its count is exactly 0, checks 2, 4, 5 pass iff their count
is below 0.01·N, check 3 iff below 0.05·N, and every count is at most
N.  The evaluator is a pure read of the dataset (it returns only this
report, the dataset is not modified). -/
theorem quality_checks_report (df : List TaxiRow) :
    run_data_quality_checks df =
      [("Null pickup/dropoff times", specNullTimesCount df,
          decide (specNullTimesCount df = 0)),
       ("Invalid trip duration", specInvalidDurationCount df,
          decide ((specInvalidDurationCount df : ℚ) < 0.01 * (df.length : ℚ))),
       ("Invalid passenger count", specInvalidPassengerCount df,
          decide ((specInvalidPassengerCount df : ℚ) < 0.05 * (df.length : ℚ))),
       ("Negative trip distance", specNonposDistanceCount df,
          decide ((specNonposDistanceCount df : ℚ) < 0.01 * (df.length : ℚ))),
       ("Invalid fare amount", specInvalidFareCount df,
          decide ((specInvalidFareCount df : ℚ) < 0.01 * (df.length : ℚ)))] ∧
    ((run_data_quality_checks df).all fun c => decide (c.2.1 ≤ df.length)) = true := by
  have e1 : (df.filter fun r => keep (sqlOr (isNull r.tpep_pickup_datetime)
      (isNull r.tpep_dropoff_datetime))).length = specNullTimesCount df := by
    rw [specNullTimesCount, List.countP_eq_length_filter]
    exact (congrArg List.length (List.filter_congr fun r _ => keep_checkNullTimes r))
  have e2 : (df.filter fun r => keep (sqlOr
      (sqlLe r.tpep_dropoff_datetime r.tpep_pickup_datetime)
      (sqlLt (some 86400) (elapsedSeconds r)))).length = specInvalidDurationCount df := by
    rw [specInvalidDurationCount, List.countP_eq_length_filter]
    exact (congrArg List.length (List.filter_congr fun r _ => keep_checkDuration r))
  have e3 : (df.filter fun r => keep (sqlOr (sqlLt r.passenger_count (some 1))
      (sqlLt (some 10) r.passenger_count))).length = specInvalidPassengerCount df := by
    rw [specInvalidPassengerCount, List.countP_eq_length_filter]
    exact (congrArg List.length (List.filter_congr fun r _ => keep_checkPassenger r))
  have e4 : (df.filter fun r => keep (sqlLe r.trip_distance (some 0))).length =
      specNonposDistanceCount df := by
    rw [specNonposDistanceCount, List.countP_eq_length_filter]
    exact (congrArg List.length (List.filter_congr fun r _ => keep_checkDistance r))
  have e5 : (df.filter fun r => keep (sqlOr (sqlLt r.fare_amount (some 0))
      (sqlLt (some 1000) r.fare_amount))).length = specInvalidFareCount df := by
    rw [specInvalidFareCount, List.countP_eq_length_filter]
    exact (congrArg List.length (List.filter_congr fun r _ => keep_checkFare r))
  constructor
  · simp only [run_data_quality_checks, e1, e2, e3, e4, e5]
    norm_num [mul_comm]
  · simp only [run_data_quality_checks, List.all_cons, List.all_nil, Bool.and_true,
      Bool.and_eq_true, decide_eq_true_eq]
    exact ⟨List.length_filter_le _ _, List.length_filter_le _ _, List.length_filter_le _ _,
      List.length_filter_le _ _, List.length_filter_le _ _⟩

/-- C3: the quality-check bounds (passenger ≤ 10, fare ≤ 1000) really
differ from the cleaning bounds (passenger ≤ 8, fare ≤ 500): a row with
passenger count 9, and a row with fare 600, each register zero
violations on all five quality checks (all checks pass) yet are removed
by the cleaning filter. -/
theorem check_vs_clean_bounds_discrepancy :
    ((run_data_quality_checks [discrepancyRowPassenger9]).map (fun c => c.2.1) =
        [0, 0, 0, 0, 0] ∧
      (run_data_quality_checks [discrepancyRowPassenger9]).map (fun c => c.2.2) =
        [true, true, true, true, true] ∧
      df_cleaned [discrepancyRowPassenger9] = []) ∧
    ((run_data_quality_checks [discrepancyRowFare600]).map (fun c => c.2.1) =
        [0, 0, 0, 0, 0] ∧
      (run_data_quality_checks [discrepancyRowFare600]).map (fun c => c.2.2) =
        [true, true, true, true, true] ∧
      df_cleaned [discrepancyRowFare600] = []) := by
  norm_num [run_data_quality_checks, discrepancyRowPassenger9, discrepancyRowFare600,
    df_cleaned, cleanCond, elapsedSeconds, sqlLt, sqlLe, sqlOr, sqlAnd, sqlSub,
    isNull, isNotNull, keep]

/-- C4: after the partitioned write, the run validates that the
read-back count equals the written count — the validation succeeds
exactly when the counts agree, and raises the fatal assertion error
exactly when they differ. -/
theorem post_write_count_check (raw : List TaxiRow) (readBack : Nat) :
    (validate_delta_roundtrip (df_enhanced raw).length readBack = Except.ok () ↔
      readBack = (df_enhanced raw).length) ∧
    (validate_delta_roundtrip (df_enhanced raw).length readBack =
        Except.error "Record count mismatch after Delta save" ↔
      readBack ≠ (df_enhanced raw).length) := by
  unfold validate_delta_roundtrip
  by_cases h : readBack = (df_enhanced raw).length <;> simp [h]

/-- C6: the cleaning filter is idempotent — running it on its own output
returns that output unchanged, because every retained row already
satisfies all the cleaning predicates. -/
theorem cleaning_idempotent (raw : List TaxiRow) :
    df_cleaned (df_cleaned raw) = df_cleaned raw := by
  simp [df_cleaned, List.filter_filter]

/-- C5: every row of the enhanced dataset carries the derived columns of
the spec — duration in minutes is the timestamp difference (seconds)
over 60, pickup hour is the hour-of-day (in 0..23), pickup day-of-week
is in 1..7 (1 = Sunday through 7 = Saturday), and speed is always a
defined value: distance / (duration/60) when the duration is positive
and exactly 0 when it is zero. -/
theorem derived_columns_formulas (raw : List TaxiRow) (e : EnhancedRow)
    (he : e ∈ df_enhanced raw) :
    ∃ pu doff : Int, ∃ dist : ℚ,
      e.base.tpep_pickup_datetime = some pu ∧
      e.base.tpep_dropoff_datetime = some doff ∧
      e.base.trip_distance = some dist ∧
      e.trip_duration_minutes = some (((doff - pu : Int) : ℚ) / 60) ∧
      e.pickup_hour = some (sparkHour pu) ∧
      0 ≤ sparkHour pu ∧ sparkHour pu < 24 ∧
      e.pickup_day_of_week = some (sparkDayOfWeek pu) ∧
      1 ≤ sparkDayOfWeek pu ∧ sparkDayOfWeek pu ≤ 7 ∧
      (∃ s : ℚ, e.trip_speed_mph = some s) ∧
      (0 < ((doff - pu : Int) : ℚ) / 60 →
        e.trip_speed_mph = some (dist / ((((doff - pu : Int) : ℚ) / 60) / 60))) ∧
      (((doff - pu : Int) : ℚ) / 60 = 0 → e.trip_speed_mph = some 0) := by
  rw [df_enhanced] at he
  obtain ⟨r, hr, rfl⟩ := List.mem_map.mp he
  have hp : specCleanPred r = true := by
    have h2 := (List.mem_filter.mp hr).2
    rwa [keep_cleanCond] at h2
  obtain ⟨pu, doff, pc, dist, fare, pul, dol⟩ := r
  cases pu with
  | none => simp [specCleanPred] at hp
  | some pu =>
  cases doff with
  | none => simp [specCleanPred] at hp
  | some doff =>
  cases pc with
  | none => simp [specCleanPred] at hp
  | some pc =>
  cases dist with
  | none => simp [specCleanPred] at hp
  | some dist =>
  cases fare with
  | none => simp [specCleanPred] at hp
  | some fare =>
  simp only [specCleanPred, Bool.and_eq_true, decide_eq_true_eq] at hp
  obtain ⟨⟨⟨⟨⟨⟨h1, h2⟩, h3⟩, h4⟩, h5⟩, h6⟩, h7⟩ := hp
  have hq : (0 : ℚ) < ((doff - pu : Int) : ℚ) / 60 := by
    have hz : (0 : ℤ) < doff - pu := sub_pos.mpr h1
    have hzq : (0 : ℚ) < ((doff - pu : Int) : ℚ) := by exact_mod_cast hz
    positivity
  have hdur : (enhance ⟨some pu, some doff, some pc, some dist, some fare, pul, dol⟩).trip_duration_minutes
      = some (((doff - pu : Int) : ℚ) / 60) := by
    simp [enhance, durationMinutes, elapsedSeconds, sqlSub]
  have hqq : (pu : ℚ) < (doff : ℚ) := by exact_mod_cast h1
  have hne : ((doff : ℚ) - (pu : ℚ)) ≠ 0 := sub_ne_zero.mpr (ne_of_gt hqq)
  have hspeed : (enhance ⟨some pu, some doff, some pc, some dist, some fare, pul, dol⟩).trip_speed_mph
      = some (dist / ((((doff - pu : Int) : ℚ) / 60) / 60)) := by
    simp [enhance, durationMinutes, elapsedSeconds, sqlSub, sqlLt, sqlWhen, sqlDiv, h1, hne]
  refine ⟨pu, doff, dist, rfl, rfl, rfl, hdur, ?_, ?_, ?_, ?_, ?_, ?_, ?_, ?_, ?_⟩
  · simp [enhance]
  · exact Int.emod_nonneg _ (by norm_num)
  · exact Int.emod_lt_of_pos _ (by norm_num)
  · simp [enhance]
  · show (1 : ℤ) ≤ (Int.fdiv pu 86400 + 4).emod 7 + 1
    have h : (0 : ℤ) ≤ (Int.fdiv pu 86400 + 4).emod 7 :=
      Int.emod_nonneg _ (by norm_num)
    linarith
  · show (Int.fdiv pu 86400 + 4).emod 7 + 1 ≤ (7 : ℤ)
    have h : (Int.fdiv pu 86400 + 4).emod 7 < 7 :=
      Int.emod_lt_of_pos _ (by norm_num)
    linarith
  · exact ⟨_, hspeed⟩
  · intro _
    exact hspeed
  · intro h0
    exact absurd h0 (ne_of_gt hq)

/-- Witness for C5 at the spec §8 example trip: a Sunday 08:00 pickup,
15-minute, 3-mile, 12-dollar trip, whose derived values evaluate to
duration 15, hour 8, day-of-week 1, speed 12. -/
theorem derived_columns_formulas_witness :
    enhance exampleTrip ∈ df_enhanced [exampleTrip] ∧
    (∃ pu doff : Int, ∃ dist : ℚ,
      (enhance exampleTrip).base.tpep_pickup_datetime = some pu ∧
      (enhance exampleTrip).base.tpep_dropoff_datetime = some doff ∧
      (enhance exampleTrip).base.trip_distance = some dist ∧
      (enhance exampleTrip).trip_duration_minutes = some (((doff - pu : Int) : ℚ) / 60) ∧
      (enhance exampleTrip).pickup_hour = some (sparkHour pu) ∧
      0 ≤ sparkHour pu ∧ sparkHour pu < 24 ∧
      (enhance exampleTrip).pickup_day_of_week = some (sparkDayOfWeek pu) ∧
      1 ≤ sparkDayOfWeek pu ∧ sparkDayOfWeek pu ≤ 7 ∧
      (∃ s : ℚ, (enhance exampleTrip).trip_speed_mph = some s) ∧
      (0 < ((doff - pu : Int) : ℚ) / 60 →
        (enhance exampleTrip).trip_speed_mph =
          some (dist / ((((doff - pu : Int) : ℚ) / 60) / 60))) ∧
      (((doff - pu : Int) : ℚ) / 60 = 0 → (enhance exampleTrip).trip_speed_mph = some 0)) :=
  ⟨by
    unfold df_enhanced df_cleaned
    refine List.mem_map.mpr ⟨exampleTrip, List.mem_filter.mpr ⟨List.mem_singleton_self _, ?_⟩, rfl⟩
    rw [keep_cleanCond]
    norm_num [specCleanPred, exampleTrip],
    derived_columns_formulas [exampleTrip] (enhance exampleTrip)
      (by
        unfold df_enhanced df_cleaned
        refine List.mem_map.mpr
          ⟨exampleTrip, List.mem_filter.mpr ⟨List.mem_singleton_self _, ?_⟩, rfl⟩
        rw [keep_cleanCond]
        norm_num [specCleanPred, exampleTrip])⟩

theorem sqlAnd_some (a b : Bool) : sqlAnd (some a) (some b) = some (a && b) := by
  cases a <;> cases b <;> rfl

theorem sqlOr_some (a b : Bool) : sqlOr (some a) (some b) = some (a || b) := by
  cases a <;> cases b <;> rfl

theorem sqlWhen_some {α : Type} (b : Bool) (x y : Option α) :
    sqlWhen (some b) x y = if b then x else y := by
  cases b <;> rfl

theorem keep_mlFilterCond (m : MLBase) : keep (mlFilterCond m) = specMLKeep m := by
  obtain ⟨dist, pc, ph, dow, dur, pul, dol, fare⟩ := m
  cases fare <;> cases dist <;> cases dur <;>
    simp [mlFilterCond, specMLKeep, keep_sqlAnd, keep_some, keep_none, sqlLt, Bool.and_assoc]

/-- C7: the modeling subset retains exactly the selected rows with fare
in (0,100), distance in (0,50) and duration in (1,120); on every
retained row the flag columns satisfy is_weekend = 1 iff the day of
week is 1 or 7 (else 0) and is_rush_hour = 1 iff the hour lies in
[7,9] or [17,19] (else 0). -/
theorem ml_subset_and_flags (df : List EnhancedRow) :
    ml_df df = ((df.map selectML).filter specMLKeep).map addMLFeatures ∧
    ∀ m ∈ ml_df df,
      (∃ f, m.fare_amount = some f ∧ 0 < f ∧ f < 100) ∧
      (∃ x, m.trip_distance = some x ∧ 0 < x ∧ x < 50) ∧
      (∃ d, m.trip_duration_minutes = some d ∧ 1 < d ∧ d < 120) ∧
      (∀ w, m.pickup_day_of_week = some w →
        m.is_weekend = some (if w = 1 ∨ w = 7 then 1 else 0)) ∧
      (∀ hh, m.pickup_hour = some hh →
        m.is_rush_hour = some (if (7 ≤ hh ∧ hh ≤ 9) ∨ (17 ≤ hh ∧ hh ≤ 19) then 1 else 0)) := by
  have hfun : ml_df df = ((df.map selectML).filter specMLKeep).map addMLFeatures := by
    unfold ml_df
    rw [List.filter_congr fun m _ => keep_mlFilterCond m]
  refine ⟨hfun, ?_⟩
  intro m hm
  rw [hfun] at hm
  obtain ⟨b, hb, rfl⟩ := List.mem_map.mp hm
  have hp := (List.mem_filter.mp hb).2
  obtain ⟨dist, pc, ph, dow, dur, pul, dol, fare⟩ := b
  cases fare with
  | none => simp [specMLKeep] at hp
  | some f =>
  cases dist with
  | none => simp [specMLKeep] at hp
  | some x =>
  cases dur with
  | none => simp [specMLKeep] at hp
  | some d =>
  simp only [specMLKeep, Bool.and_eq_true, decide_eq_true_eq] at hp
  obtain ⟨⟨⟨⟨⟨hf0, hf100⟩, hx0⟩, hx50⟩, hd1⟩, hd120⟩ := hp
  refine ⟨⟨f, rfl, hf0, hf100⟩, ⟨x, rfl, hx0, hx50⟩, ⟨d, rfl, hd1, hd120⟩, ?_, ?_⟩
  · intro w hw
    simp only [addMLFeatures] at hw ⊢
    rw [hw]
    simp only [sqlEq, sqlOr_some, sqlWhen_some, ← Bool.decide_or]
    by_cases hP : w = 1 ∨ w = 7 <;> simp [hP]
  · intro hh hhw
    simp only [addMLFeatures] at hhw ⊢
    rw [hhw]
    simp only [sqlBetween, sqlLe, sqlAnd_some, sqlOr_some, sqlWhen_some,
      ← Bool.decide_and, ← Bool.decide_or]
    by_cases hP : (7 ≤ hh ∧ hh ≤ 9) ∨ (17 ≤ hh ∧ hh ≤ 19) <;> simp [hP]

/-- C10: the unguarded speed recomputation of the analysis stage never
divides by zero — every row of the modeling subset has duration
strictly above 1 minute, so the divisor duration/60 is nonzero, the
division is defined, and the recomputed speed is strictly positive. -/
theorem ml_speed_division_safe (df : List EnhancedRow) (m : MLRow)
    (hm : m ∈ ml_df df) :
    ∃ d x : ℚ, m.trip_duration_minutes = some d ∧ 1 < d ∧
      m.trip_distance = some x ∧ 0 < x ∧ d / 60 ≠ 0 ∧
      m.trip_speed_mph = some (x / (d / 60)) ∧ 0 < x / (d / 60) := by
  unfold ml_df at hm
  obtain ⟨b, hb, rfl⟩ := List.mem_map.mp hm
  have hp := (List.mem_filter.mp hb).2
  rw [keep_mlFilterCond] at hp
  obtain ⟨dist, pc, ph, dow, dur, pul, dol, fare⟩ := b
  cases fare with
  | none => simp [specMLKeep] at hp
  | some f =>
  cases dist with
  | none => simp [specMLKeep] at hp
  | some x =>
  cases dur with
  | none => simp [specMLKeep] at hp
  | some d =>
  simp only [specMLKeep, Bool.and_eq_true, decide_eq_true_eq] at hp
  obtain ⟨⟨⟨⟨⟨hf0, hf100⟩, hx0⟩, hx50⟩, hd1⟩, hd120⟩ := hp
  have hd0 : (0 : ℚ) < d := lt_trans zero_lt_one hd1
  have hdiv : d / 60 ≠ 0 := ne_of_gt (by positivity)
  refine ⟨d, x, rfl, hd1, rfl, hx0, hdiv, ?_, div_pos hx0 (by positivity)⟩
  show sqlDiv (some x) (sqlDiv (some d) (some 60)) = some (x / (d / 60))
  norm_num [sqlDiv, hdiv]

/-- Witness for C7 at the §8 example trip: the example ML row is in the
modeling subset, its fare, distance and duration fall in the open
bounds, and—its pickup being hour 8 of a Sunday—its flags evaluate to
is_weekend = 1 and is_rush_hour = 1. -/
theorem ml_subset_and_flags_witness :
    exampleML ∈ ml_df [enhance exampleTrip] ∧
    ((∃ f, exampleML.fare_amount = some f ∧ 0 < f ∧ f < 100) ∧
      (∃ x, exampleML.trip_distance = some x ∧ 0 < x ∧ x < 50) ∧
      (∃ d, exampleML.trip_duration_minutes = some d ∧ 1 < d ∧ d < 120) ∧
      (∀ w, exampleML.pickup_day_of_week = some w →
        exampleML.is_weekend = some (if w = 1 ∨ w = 7 then 1 else 0)) ∧
      (∀ hh, exampleML.pickup_hour = some hh →
        exampleML.is_rush_hour =
          some (if (7 ≤ hh ∧ hh ≤ 9) ∨ (17 ≤ hh ∧ hh ≤ 19) then 1 else 0))) := by
  have hmem : exampleML ∈ ml_df [enhance exampleTrip] := by
    unfold ml_df
    refine List.mem_map.mpr ⟨selectML (enhance exampleTrip),
      List.mem_filter.mpr
        ⟨List.mem_map.mpr ⟨enhance exampleTrip, List.mem_singleton_self _, rfl⟩, ?_⟩, rfl⟩
    rw [keep_mlFilterCond]
    norm_num [specMLKeep, selectML, enhance, durationMinutes, elapsedSeconds, sqlSub,
      exampleTrip]
  exact ⟨hmem, (ml_subset_and_flags [enhance exampleTrip]).2 exampleML hmem⟩

/-- Witness for C10 at the §8 example trip: the example ML row's
duration is 15 minutes, its distance 3 miles, and the unguarded
recomputation yields the well-defined positive speed 3/(15/60). -/
theorem ml_speed_division_safe_witness :
    exampleML ∈ ml_df [enhance exampleTrip] ∧
    (∃ d x : ℚ, exampleML.trip_duration_minutes = some d ∧ 1 < d ∧
      exampleML.trip_distance = some x ∧ 0 < x ∧ d / 60 ≠ 0 ∧
      exampleML.trip_speed_mph = some (x / (d / 60)) ∧ 0 < x / (d / 60)) := by
  have hmem : exampleML ∈ ml_df [enhance exampleTrip] := by
    unfold ml_df
    refine List.mem_map.mpr ⟨selectML (enhance exampleTrip),
      List.mem_filter.mpr
        ⟨List.mem_map.mpr ⟨enhance exampleTrip, List.mem_singleton_self _, rfl⟩, ?_⟩, rfl⟩
    rw [keep_mlFilterCond]
    norm_num [specMLKeep, selectML, enhance, durationMinutes, elapsedSeconds, sqlSub,
      exampleTrip]
  exact ⟨hmem, ml_speed_division_safe [enhance exampleTrip] exampleML hmem⟩

/-- C8 (amended): the revenue ranking computes, per pickup hour, the
approximate total revenue = mean fare × trip count, sorts the hours in
NON-increasing order of that value (adjacent reported rows satisfy
earlier ≥ later; ties between equal-revenue hours are possible, so the
descent is not strict), and reports the first five rows of the sorted
ranking. -/
theorem hourly_revenue_sorted_desc (df : List EnhancedRow) :
    top_revenue_hours df = (hourly_revenue df).take 5 ∧
    List.Chain' revGe (hourly_revenue df) ∧
    List.Chain' revGe (top_revenue_hours df) ∧
    ((hourly_revenue df).all fun e =>
      e.total_revenue == sqlMul e.avg_fare (some (e.trip_count : ℚ))) = true := by
  have hsorted : List.Sorted revGe (hourly_revenue df) :=
    List.sorted_insertionSort revGe _
  refine ⟨rfl, List.Pairwise.chain' hsorted, ?_, ?_⟩
  · exact List.Pairwise.chain' (List.Pairwise.sublist (List.take_sublist 5 _) hsorted)
  · rw [List.all_eq_true]
    intro e he
    have he2 := (List.perm_insertionSort revGe _).mem_iff.mp he
    obtain ⟨h, _, rfl⟩ := List.mem_map.mp he2
    simp [hourlyAgg]

/-- Counterexample to C8 as stated: with one hour-1 trip and one hour-2
trip of equal fare 10, the two reported rows have equal total revenue
10, so the earlier reported row's total revenue is not strictly greater
than the later one's. -/
theorem hourly_revenue_strict_descent_fails :
    ¬ List.Chain' strictRevGt (top_revenue_hours [tieRowHour1, tieRowHour2]) := by
  intro hchain
  norm_num [top_revenue_hours, hourly_revenue, tieRowHour1, tieRowHour2, List.dedup,
    List.insertionSort, List.orderedInsert, revGe, revGeB, hourlyAgg, tieBase, sqlMul,
    List.filterMap, List.filter, List.sum_cons, List.sum_nil,
    strictRevGt, List.chain'_cons, List.chain'_singleton] at hchain

/-- C9: given the evaluated held-out RMSE of the linear and forest
models, the selected best model attains the minimum of the two RMSE
values, the forest is selected exactly when its RMSE is strictly lower,
feature importances are reported exactly when the forest is selected,
and on a tie the strict comparison selects the linear model. -/
theorem best_model_selection (lr_rmse rf_rmse : ℚ) :
    rmse_of lr_rmse rf_rmse (best_model lr_rmse rf_rmse) = min lr_rmse rf_rmse ∧
    (best_model lr_rmse rf_rmse = RegModel.randomForest ↔ rf_rmse < lr_rmse) ∧
    (feature_importance_reported lr_rmse rf_rmse = true ↔
      best_model lr_rmse rf_rmse = RegModel.randomForest) ∧
    best_model lr_rmse lr_rmse = RegModel.linearRegression := by
  by_cases h : rf_rmse < lr_rmse
  · simp [best_model, rmse_of, feature_importance_reported, h, min_eq_right (le_of_lt h)]
  · simp [best_model, rmse_of, feature_importance_reported, h, min_eq_left (not_lt.mp h)]
